import Mathlib

/-!
Verification of the script-execution core of the Maps_Script_Helper backend.

The definitions below are a shallow embedding of the Python sources:
* `backend/docker_runner.py`   — `DockerRunner.run_script` and `__init__`
* `backend/k8s_runner.py`      — `KubernetesRunner.run_script`,
  `wait_for_pod_completion`, `cleanup_pod`
* `backend/runtime_config.py`  — `detect_runtime`
* `backend/app.py`             — startup runtime selection, `run_code`
  marker lifecycle, `cleanup_old_outputs`
* `backend/script_logger.py`   — `ScriptLogger` and its session linking

External effects (subprocess runs, Kubernetes API calls, the filesystem,
`uuid4`) are modelled as explicit inputs; Python exceptions crossing a
function boundary are modelled with `Except`.
-/

/-- The `status` field of a normalized execution result
(`"success"`, `"failed"` or `"timeout"`). -/
inductive Status where
  | success
  | failed
  | timeout
deriving DecidableEq, Repr

/-- The dict returned by `DockerRunner.run_script`
(`status`, `exit_code`, `stdout`, `stderr`, `logs`). -/
structure RunResult where
  status : Status
  exit_code : Int
  stdout : String
  stderr : String
  logs : String
deriving DecidableEq, Repr

/-- Outcome of the `subprocess.run(docker_cmd, ..., timeout=timeout)` call
inside `DockerRunner.run_script`: normal completion with a return code and
captured streams, a `subprocess.TimeoutExpired`, or any other exception
(its text). -/
inductive SubprocessOutcome where
  | completed (returncode : Int) (stdout stderr : String)
  | timedOut
  | raised (msg : String)
deriving DecidableEq, Repr

namespace DockerRunner

/-- `backend/docker_runner.py`, lines 98-141: the try/except body of
`DockerRunner.run_script`.  `timeout` is the effective timeout in seconds
(after `timeout or self.default_timeout`); `outcome` is what the
`subprocess.run` call did. -/
def run_script (timeout : Nat) (outcome : SubprocessOutcome) : RunResult :=
  match outcome with
  | .completed rc out err =>
      { status := if rc = 0 then .success else .failed
        exit_code := rc
        stdout := out
        stderr := err
        logs := out ++ err }
  | .timedOut =>
      { status := .timeout
        exit_code := -1
        stdout := ""
        stderr := s!"Script execution timed out after {timeout} seconds"
        logs := s!"Script execution timed out after {timeout} seconds" }
  | .raised e =>
      { status := .failed
        exit_code := -1
        stdout := ""
        stderr := s!"Docker execution error: {e}"
        logs := s!"Docker execution error: {e}" }

/-- `backend/docker_runner.py`, lines 16-32: `DockerRunner.__init__`.
`versionOutcome` is the outcome of `subprocess.run(["docker", "version"])`:
`.ok rc` for a completed call with return code `rc`, `.error e` when it
raised (text `e`).  A nonzero return code raises `RuntimeError("Docker is
not available")` inside the `try`, which the `except` clause wraps again. -/
def init (versionOutcome : Except String Int) : Except String Unit :=
  match versionOutcome with
  | .ok rc =>
      if rc ≠ 0 then
        .error "Docker is not available: Docker is not available"
      else
        .ok ()
  | .error e => .error ("Docker is not available: " ++ e)

end DockerRunner

/-- A Kubernetes pod phase as read by `wait_for_pod_completion`. -/
inductive PodPhase where
  | Succeeded
  | Failed
  | Pending
  | Running
deriving DecidableEq, Repr

/-- One `read_namespaced_pod` observation inside the polling loop of
`wait_for_pod_completion`: a pod with a phase (and, when the container has
terminated, its exit code), a 404 `ApiException`, or any other
`ApiException` (which the code re-raises). -/
inductive PodObservation where
  | phase (p : PodPhase) (terminatedExitCode : Option Int)
  | notFound
  | apiError (msg : String)
deriving DecidableEq, Repr

/-- The dict produced by `wait_for_pod_completion` before `run_script`
attaches the logs: `status`, `exit_code` and the optional `error` key set
in the 404 branch. -/
structure WaitResult where
  status : Status
  exit_code : Int
  error : Option String
deriving DecidableEq, Repr

/-- The dict returned by `KubernetesRunner.run_script`: the
`wait_for_pod_completion` fields plus the `logs` key. -/
structure K8sResult where
  status : Status
  exit_code : Int
  error : Option String
  logs : String
deriving DecidableEq, Repr

namespace KubernetesRunner

/-- `backend/k8s_runner.py`, lines 147-176: `wait_for_pod_completion`.
`polls` is the sequence of `read_namespaced_pod` observations the loop
makes before the `time.time() - start_time < timeout` budget is exhausted;
an empty remainder means the while condition failed, which returns the
timeout dict.  A `Failed` phase reads the first container status's
terminated exit code, defaulting to 1 when unavailable; a non-404
`ApiException` is re-raised (`.error`). -/
def wait_for_pod_completion (polls : List PodObservation) :
    Except String WaitResult :=
  match polls with
  | [] => .ok { status := .timeout, exit_code := -1, error := none }
  | obs :: rest =>
      match obs with
      | .phase .Succeeded _ =>
          .ok { status := .success, exit_code := 0, error := none }
      | .phase .Failed t =>
          .ok { status := .failed, exit_code := t.getD 1, error := none }
      | .phase .Pending _ => wait_for_pod_completion rest
      | .phase .Running _ => wait_for_pod_completion rest
      | .notFound =>
          .ok { status := .failed, exit_code := -1
                error := some "Pod not found" }
      | .apiError m => .error m

/-- `backend/k8s_runner.py`, lines 37-57: `create_script_configmap`.
`apiOutcome` is the outcome of `create_namespaced_config_map`; an
`ApiException` is wrapped into `RuntimeError("Failed to create ConfigMap:
...")` and raised. -/
def create_script_configmap (job_id : String)
    (apiOutcome : Except String Unit) : Except String String :=
  match apiOutcome with
  | .ok _ => .ok ("job-code-" ++ job_id)
  | .error e => .error ("Failed to create ConfigMap: " ++ e)

/-- `backend/k8s_runner.py`, lines 59-145: `create_runner_pod` (only its
success/raise behaviour; the pod spec construction has no effect on the
result contract).  An `ApiException` is wrapped into
`RuntimeError("Failed to create Pod: ...")` and raised. -/
def create_runner_pod (job_id : String)
    (apiOutcome : Except String Unit) : Except String String :=
  match apiOutcome with
  | .ok _ => .ok ("runner-" ++ job_id)
  | .error e => .error ("Failed to create Pod: " ++ e)

/-- What `KubernetesRunner.run_script` produced: the returned dict or the
exception that escaped it, together with whether `cleanup_pod` was invoked
on the way out (the `finally` block, lines 261-265, has the invocation
commented out and only prints a debug line). -/
structure RunScriptOutput where
  result : Except String K8sResult
  cleanupCalled : Bool
deriving Repr

/-- `backend/k8s_runner.py`, lines 214-265: `KubernetesRunner.run_script`.
`cmOutcome` / `podOutcome` are the Kubernetes API outcomes of the
ConfigMap and Pod creation calls, `polls` the polling observations, and
`podLogs` what `get_pod_logs` returns (that helper catches its own
`ApiException` and returns an error string, so it is total).  The
`finally` block never calls `cleanup_pod`: it is disabled in the source
("Cleanup - TEMPORARILY DISABLED FOR DEBUGGING"). -/
def run_script (job_id : String) (cmOutcome podOutcome : Except String Unit)
    (polls : List PodObservation) (podLogs : String) : RunScriptOutput :=
  match create_script_configmap job_id cmOutcome with
  | .error e => { result := .error e, cleanupCalled := false }
  | .ok _ =>
      match create_runner_pod job_id podOutcome with
      | .error e => { result := .error e, cleanupCalled := false }
      | .ok _ =>
          match wait_for_pod_completion polls with
          | .error e => { result := .error e, cleanupCalled := false }
          | .ok w =>
              { result := .ok { status := w.status, exit_code := w.exit_code
                                error := w.error, logs := podLogs }
                cleanupCalled := false }

/-- `backend/k8s_runner.py`, lines 190-212: `cleanup_pod`.  Each deletion
is wrapped in its own try/except that turns an `ApiException` into a
printed warning; the function returns the list of warnings and never
raises. -/
def cleanup_pod (pod_name configmap_name : String)
    (podDelete cmDelete : Except String Unit) : List String :=
  (match podDelete with
   | .ok _ => []
   | .error e => [s!"Warning: Failed to delete Pod {pod_name}: {e}"]) ++
  (match cmDelete with
   | .ok _ => []
   | .error e => [s!"Warning: Failed to delete ConfigMap {configmap_name}: {e}"])

end KubernetesRunner

/-! ## Runtime detection and startup selection (`runtime_config.py`, `app.py`) -/

/-- Python's `str.lower()` (character-wise; the values compared here are
ASCII). -/
def strLower (s : String) : String := String.mk (s.toList.map Char.toLower)

/-- `backend/runtime_config.py`, lines 12-31: `detect_runtime`.  The two
environment variables are modelled as `Option String` (`none` = unset).
`os.getenv("EXECUTION_RUNTIME", "")` defaults to `""` and is lowercased;
`os.getenv("KUBERNETES_SERVICE_HOST")` is used under Python truthiness,
so an empty value behaves like an unset one. -/
def detect_runtime (execRuntimeVar k8sServiceHostVar : Option String) :
    String :=
  let runtime := strLower (execRuntimeVar.getD "")
  if runtime = "docker" ∨ runtime = "kubernetes" then
    runtime
  else if (k8sServiceHostVar.getD "") ≠ "" then
    "kubernetes"
  else
    "docker"

/-- Written from the spec sentence for claim C5, for comparison with
`detect_runtime`: "if the orchestrator in-cluster discovery variable is
set, kubernetes is returned", reading "set" as present in the
environment. -/
def detect_runtime_spec (execRuntimeVar k8sServiceHostVar : Option String) :
    String :=
  let runtime := strLower (execRuntimeVar.getD "")
  if runtime = "docker" ∨ runtime = "kubernetes" then
    runtime
  else if k8sServiceHostVar ≠ none then
    "kubernetes"
  else
    "docker"

/-- `backend/app.py`, lines 51-74: startup selection of the execution
runtime.  `detected` is `detect_runtime()`; `k8sInit` is the outcome of
`k8s_runner.get_runner()` (it raises when the Kubernetes client cannot be
configured); `dockerInit` the outcome of `docker_runner.get_runner()`
(`DockerRunner.init`).  A Kubernetes initialization failure is caught,
logged as a warning and `_execution_runtime` is set to `"docker"`; a
Docker initialization failure then raises
`RuntimeError("No script execution runtime available. ...")`, aborting
startup. -/
def startupRuntime (detected : String)
    (k8sInit dockerInit : Except String Unit) : Except String String :=
  let afterK8s :=
    if detected = "kubernetes" then
      match k8sInit with
      | .ok _ => "kubernetes"
      | .error _ => "docker"
    else detected
  if afterK8s = "docker" then
    match dockerInit with
    | .ok _ => .ok "docker"
    | .error _ =>
        .error "No script execution runtime available. Cannot start backend."
  else
    .ok afterK8s

/-! ## Cleanup sweep (`app.py`, `cleanup_old_outputs`) -/

/-- One job directory under `outputs/` as seen by `cleanup_old_outputs`:
the age in seconds of its `.active` marker (`none` when the marker file
does not exist) and the age in seconds of the directory's own mtime.
Ages are `current_time - st_mtime` and may be negative for files touched
in the future. -/
structure JobDirInfo where
  markerAge : Option Int
  mtimeAge : Int
deriving DecidableEq, Repr

/-- `backend/app.py`, lines 680-703: the per-directory decision of
`cleanup_old_outputs` for a sweep with threshold `max_age_minutes`.
A directory with a marker younger than twice the threshold is skipped;
otherwise it is removed exactly when its mtime age reaches the
threshold. -/
def shouldDelete (max_age_minutes : Nat) (d : JobDirInfo) : Bool :=
  let max_age_seconds : Int := max_age_minutes * 60
  match d.markerAge with
  | some age =>
      if age < max_age_seconds * 2 then false
      else decide (d.mtimeAge ≥ max_age_seconds)
  | none => decide (d.mtimeAge ≥ max_age_seconds)

/-- `backend/app.py`, lines 651-718: `cleanup_old_outputs`, returning the
set of job directories it deletes.  When the advisory file lock cannot be
acquired the function returns before scanning anything. -/
def cleanup_old_outputs (lockAcquired : Bool) (max_age_minutes : Nat)
    (dirs : List JobDirInfo) : List JobDirInfo :=
  if lockAcquired then dirs.filter (shouldDelete max_age_minutes) else []

/-! ## `run_code` marker lifecycle (`app.py`, lines 948-1424) -/

/-- Which path the body of `run_code` takes after the job directories are
created and the active marker is written (all early returns of the
handler before that point do not reach the directory creation). -/
inductive RunCodePath where
  /-- `return JSONResponse({"error": "No code provided...."})`, line 1057,
  and the other pre-execution validation returns (lines 1064-1082). -/
  | earlyReturn
  /-- The executor call returned a result dict (timeout, failure and
  success responses, lines 1234-1413). -/
  | execReturned (status : Status)
  /-- The executor call raised; caught at line 1269 and converted into a
  failed `ProcResult`, then the failure response is returned. -/
  | execRaised
  /-- Some other exception escaped the inner code; caught by the outer
  `except` at line 1414, which returns a 500 response. -/
  | outerException
deriving DecidableEq, Repr

/-- Events of the `run_code` handler that touch the job workspace or the
executor, in program order. -/
inductive RunCodeEvent where
  | mkJobDirs
  | writeActiveMarker
  | callExecutor
  | returnResponse
  | removeActiveMarker
deriving DecidableEq, Repr

/-- `backend/app.py`, lines 987-1424: the ordered workspace/executor
events of one `run_code` invocation.  Directories are created at lines
1020-1021, the marker written at lines 1024-1026, the executor invoked at
lines 1213-1231, and the `finally` at lines 1419-1424 unlinks the marker
after every return or exception. -/
def runCodeEvents (p : RunCodePath) : List RunCodeEvent :=
  [.mkJobDirs, .writeActiveMarker] ++
  (match p with
   | .earlyReturn => [.returnResponse]
   | .execReturned _ => [.callExecutor, .returnResponse]
   | .execRaised => [.callExecutor, .returnResponse]
   | .outerException => [.callExecutor]) ++
  [.removeActiveMarker]

/-- Whether the active marker file exists after a list of `run_code`
events has executed (starting from a fresh job directory). -/
def markerPresentAfter (evs : List RunCodeEvent) : Bool :=
  evs.foldl
    (fun present ev =>
      match ev with
      | .writeActiveMarker => true
      | .removeActiveMarker => false
      | _ => present)
    false

/-! ## Script logger (`script_logger.py`) -/

/-- `xs` begins with `pat` (character-list version of `str.startswith`). -/
def listStartsWith : List Char → List Char → Bool
  | _, [] => true
  | [], _ :: _ => false
  | a :: as, b :: bs => a = b && listStartsWith as bs

/-- `pat` occurs somewhere in `l` (used for Python's `in` on strings). -/
def containsSub (pat : List Char) : List Char → Bool
  | [] => listStartsWith [] pat
  | c :: t => listStartsWith (c :: t) pat || containsSub pat t

/-- Python's `pat in s` for strings. -/
def strContains (s pat : String) : Bool := containsSub pat.toList s.toList

/-- A `\w` character of the regex in `_extract_error_type` (the error
class names in tracebacks are ASCII identifiers). -/
def isWordChar (c : Char) : Bool := c.isAlphanum || c = '_'

/-- Length of the maximal `\w*` run at the head of `l` (how much a greedy
`\w+` can consume). -/
def wordRunLength : List Char → Nat
  | [] => 0
  | c :: t => if isWordChar c then wordRunLength t + 1 else 0

/-- Backtracking of a greedy `\w+`: the largest `n` with `1 ≤ n ≤ fuel`
such that `l.drop n` begins with `pat`.  The third argument starts at the
maximal run length, so larger `n` are tried first, exactly as the regex
engine shrinks a greedy `\w+`. -/
def greedyFind (l : List Char) (pat : List Char) : Nat → Option Nat
  | 0 => none
  | n + 1 =>
      if listStartsWith (l.drop (n + 1)) pat then some (n + 1)
      else greedyFind l pat n

/-- One attempt of `re.search(r'(\w+Error|\w+Exception):', stderr)` at a
fixed start position: alternative `\w+Error` (with backtracking) first,
then `\w+Exception`, each followed by the literal `:`.  Returns the
captured group. -/
def tryMatch (l : List Char) : Option String :=
  let m := wordRunLength l
  match greedyFind l "Error:".toList m with
  | some n => some (String.mk (l.take n ++ "Error".toList))
  | none =>
      match greedyFind l "Exception:".toList m with
      | some n => some (String.mk (l.take n ++ "Exception".toList))
      | none => none

/-- `re.search` proper: try each start position from the left, return the
group of the first (leftmost) position that matches. -/
def searchErrorType : List Char → Option String
  | [] => none
  | c :: t =>
      match tryMatch (c :: t) with
      | some g => some g
      | none => searchErrorType t

/-- The `status` stored in log entries and session attempt lists
(`"failed"` or `"success"`). -/
inductive AttemptStatus where
  | failed
  | success
deriving DecidableEq, Repr

/-- The overall status of a session record
(`"in_progress"` or `"resolved"`). -/
inductive SessionStatus where
  | in_progress
  | resolved
deriving DecidableEq, Repr

/-- One entry of a session record's `attempts` list (the timestamp field
is not modelled). -/
structure SessionAttempt where
  log_id : String
  status : AttemptStatus
deriving DecidableEq, Repr

/-- One `sessions/{session_id}.json` record (timestamps not modelled). -/
structure SessionRecord where
  session_id : String
  attempts : List SessionAttempt
  status : SessionStatus
deriving DecidableEq, Repr

/-- One failure log entry, restricted to the fields the claims are about
(`timestamp`, `code_hash`, tags and context fields are not modelled). -/
structure FailureRecord where
  log_id : String
  session_id : String
  error_message : String
  error_type : Option String
  error_category : String
  stderr : String
  return_code : Int
  previous_attempt_id : Option String
  fixed_by : Option String
deriving DecidableEq, Repr

/-- One success log entry, restricted to the fields the claims are about. -/
structure SuccessRecord where
  log_id : String
  session_id : String
  output_files : List String
  previous_attempt_id : Option String
deriving DecidableEq, Repr

/-- The persisted state of a `ScriptLogger`: the failure files, success
files and session files.  Log files are written once each with a fresh
uuid name, so entries are listed in creation order. -/
structure LoggerState where
  failures : List FailureRecord
  successes : List SuccessRecord
  sessions : List SessionRecord
deriving DecidableEq, Repr

/-- A record returned by `ScriptLogger.get_log` (which searches the
failures root first, then the successes root). -/
inductive LogRecord where
  | failure (f : FailureRecord)
  | success (s : SuccessRecord)
deriving DecidableEq, Repr

namespace ScriptLogger

/-- `if not session_id: session_id = log_id` — Python falsiness, so both
`None` and the empty string start a new session. -/
def effectiveSessionId (session_id : Option String) (log_id : String) :
    String :=
  match session_id with
  | some s => if s = "" then log_id else s
  | none => log_id

/-- `backend/script_logger.py`, lines 302-312: `_extract_error_type`. -/
def _extract_error_type (stderr : String) : Option String :=
  if stderr = "" then none
  else searchErrorType stderr.toList

/-- `backend/script_logger.py`, lines 275-300: `_categorize_error`. -/
def _categorize_error (error_message stderr : String) : String :=
  let error_text := strLower (error_message ++ " " ++ stderr)
  if strContains error_text "import" ||
      strContains error_text "modulenotfounderror" then "import_error"
  else if strContains error_text "attributeerror" then "attribute_error"
  else if strContains error_text "keyerror" ||
      strContains error_text "indexerror" then "data_access_error"
  else if strContains error_text "typeerror" then "type_error"
  else if strContains error_text "valueerror" then "value_error"
  else if strContains error_text "filenotfounderror" ||
      strContains error_text "no such file" then "file_not_found"
  else if strContains error_text "permission" ||
      strContains error_text "access" then "permission_error"
  else if strContains error_text "timeout" then "timeout"
  else if strContains error_text "memory" then "memory_error"
  else if strContains error_text "syntax" then "syntax_error"
  else "unknown"

/-- `backend/script_logger.py`, lines 228-256: `_update_session`.  The
session file is read if it exists (else initialized as `in_progress` with
no attempts), the new attempt is appended, the status is set to
`resolved` when the attempt is a success, and the file is written back. -/
def _update_session (st : LoggerState) (session_id log_id : String)
    (status : AttemptStatus) : LoggerState :=
  let old := st.sessions.find? (fun s => s.session_id = session_id)
  let base := old.getD
    { session_id := session_id, attempts := [], status := .in_progress }
  let appended :=
    { base with attempts := base.attempts ++ [⟨log_id, status⟩] }
  let final :=
    if status = .success then { appended with status := .resolved }
    else appended
  { st with
    sessions :=
      match old with
      | some _ =>
          st.sessions.map
            (fun s => if s.session_id = session_id then final else s)
      | none => st.sessions ++ [final] }

/-- Update of the first failure record named `failure_log_id` (the Python
loop breaks after the first date directory containing the file). -/
def setFixedBy : List FailureRecord → String → String → List FailureRecord
  | [], _, _ => []
  | f :: rest, fid, sid =>
      if f.log_id = fid then { f with fixed_by := some sid } :: rest
      else f :: setFixedBy rest fid sid

/-- `backend/script_logger.py`, lines 258-273: `_mark_failure_as_fixed`. -/
def _mark_failure_as_fixed (st : LoggerState)
    (failure_log_id success_log_id : String) : LoggerState :=
  { st with
    failures := setFixedBy st.failures failure_log_id success_log_id }

/-- `backend/script_logger.py`, lines 106-168: `log_failure`.  `log_id`
is the fresh `uuid4` drawn by the call.  The entry is written under the
failures root, then the session record is updated with a `"failed"`
attempt. -/
def log_failure (st : LoggerState) (log_id : String)
    (error_message stderr : String) (return_code : Int)
    (session_id previous_attempt_id error_category : Option String) :
    LoggerState × String :=
  let sid := effectiveSessionId session_id log_id
  let category :=
    match error_category with
    | some c => if c = "" then _categorize_error error_message stderr else c
    | none => _categorize_error error_message stderr
  let entry : FailureRecord :=
    { log_id := log_id
      session_id := sid
      error_message := error_message
      error_type := _extract_error_type stderr
      error_category := category
      stderr := stderr
      return_code := return_code
      previous_attempt_id := previous_attempt_id
      fixed_by := none }
  let st1 := { st with failures := st.failures ++ [entry] }
  let st2 := _update_session st1 sid log_id .failed
  (st2, log_id)

/-- `backend/script_logger.py`, lines 170-226: `log_success`.  The entry
is written under the successes root, the session record is updated with a
`"success"` attempt, and when a truthy `previous_attempt_id` was passed
the referenced failure is marked as fixed by this entry. -/
def log_success (st : LoggerState) (log_id : String)
    (output_files : List String)
    (session_id previous_attempt_id : Option String) :
    LoggerState × String :=
  let sid := effectiveSessionId session_id log_id
  let entry : SuccessRecord :=
    { log_id := log_id
      session_id := sid
      output_files := output_files
      previous_attempt_id := previous_attempt_id }
  let st1 := { st with successes := st.successes ++ [entry] }
  let st2 := _update_session st1 sid log_id .success
  let st3 :=
    match previous_attempt_id with
    | some p => if p = "" then st2 else _mark_failure_as_fixed st2 p log_id
    | none => st2
  (st3, log_id)

/-- `backend/script_logger.py`, lines 359-370: `get_log` (failures are
searched before successes). -/
def get_log (st : LoggerState) (log_id : String) : Option LogRecord :=
  match st.failures.find? (fun f => f.log_id = log_id) with
  | some f => some (.failure f)
  | none =>
      (st.successes.find? (fun s => s.log_id = log_id)).map .success

/-- `backend/script_logger.py`, lines 351-357: `get_session`. -/
def get_session (st : LoggerState) (session_id : String) :
    Option SessionRecord :=
  st.sessions.find? (fun s => s.session_id = session_id)

end ScriptLogger

/-! ## Middle section of the `run_code` event trace -/

/-- The events of `run_code` strictly between the marker write and the
`finally` removal, per path. -/
def middleEvents : RunCodePath → List RunCodeEvent
  | .earlyReturn => [.returnResponse]
  | .execReturned _ => [.callExecutor, .returnResponse]
  | .execRaised => [.callExecutor, .returnResponse]
  | .outerException => [.callExecutor]

/-! ## Helper lemmas -/

theorem find?_append_of_forall_false {α : Type} (p : α → Bool)
    {l1 : List α} (l2 : List α) (h : ∀ y ∈ l1, p y = false) :
    List.find? p (l1 ++ l2) = List.find? p l2 := by
  induction l1 with
  | nil => simp
  | cons a t ih =>
      have ha : p a = false := h a (List.mem_cons_self a t)
      simp only [List.cons_append, List.find?, ha]
      exact ih (fun y hy => h y (List.mem_cons_of_mem a hy))

theorem find?_of_forall_false {α : Type} (p : α → Bool)
    {l : List α} (h : ∀ y ∈ l, p y = false) :
    List.find? p l = none := by
  have h2 := find?_append_of_forall_false p [] h
  simpa using h2

theorem setFixedBy_append {l : List FailureRecord} (F : FailureRecord)
    (fid sid : String) (h : ∀ f ∈ l, f.log_id ≠ fid)
    (hF : F.log_id = fid) :
    ScriptLogger.setFixedBy (l ++ [F]) fid sid =
      l ++ [{ F with fixed_by := some sid }] := by
  induction l with
  | nil => simp [ScriptLogger.setFixedBy, hF]
  | cons a t ih =>
      have ha : a.log_id ≠ fid := h a (List.mem_cons_self a t)
      have ht := ih (fun f hf => h f (List.mem_cons_of_mem a hf))
      show ScriptLogger.setFixedBy (a :: (t ++ [F])) fid sid = _
      simp only [ScriptLogger.setFixedBy, if_neg ha, List.cons_append]
      exact congrArg (a :: ·) ht

theorem map_replace_append {l : List SessionRecord} (S fin : SessionRecord)
    (A : String) (h : ∀ s ∈ l, s.session_id ≠ A) (hS : S.session_id = A) :
    (l ++ [S]).map (fun s => if s.session_id = A then fin else s) =
      l ++ [fin] := by
  induction l with
  | nil => simp [hS]
  | cons a t ih =>
      have ha : a.session_id ≠ A := h a (List.mem_cons_self a t)
      have ht := ih (fun s hs => h s (List.mem_cons_of_mem a hs))
      show (a :: (t ++ [S])).map _ = _
      simp only [List.map, if_neg ha, List.cons_append]
      exact congrArg (a :: ·) ht

theorem find?_map_replace {l : List SessionRecord} {x : SessionRecord}
    (A : String) (fin : SessionRecord) (hfin : fin.session_id = A)
    (hx : l.find? (fun s => s.session_id = A) = some x) :
    (l.map (fun s => if s.session_id = A then fin else s)).find?
        (fun s => s.session_id = A) = some fin := by
  induction l with
  | nil => simp at hx
  | cons a t ih =>
      by_cases ha : a.session_id = A
      · simp only [List.map, if_pos ha, List.find?]
        simp [hfin]
      · have ha2 : decide (a.session_id = A) = false := by
          simpa using ha
        simp only [List.find?, ha2] at hx
        simp only [List.map, if_neg ha, List.find?, ha2]
        exact ih hx

/-! ## Claims -/

/-- C3: the claim says every orchestrator run deletes its transient pod
and ConfigMap on the way out.  In `backend/k8s_runner.py` lines 261-265
the `finally` block of `run_script` has the `cleanup_pod` call commented
out ("Cleanup - TEMPORARILY DISABLED FOR DEBUGGING") and only prints a
debug line, so no run — success, failure or timeout — ever deletes
either object.  This theorem evaluates the code on all inputs: the
cleanup is never invoked. -/
theorem C3_cleanup_never_invoked (job_id : String)
    (cmOutcome podOutcome : Except String Unit)
    (polls : List PodObservation) (podLogs : String) :
    (KubernetesRunner.run_script job_id cmOutcome podOutcome polls
      podLogs).cleanupCalled = false := by
  unfold KubernetesRunner.run_script
  cases cmOutcome with
  | error e => rfl
  | ok u =>
      cases podOutcome with
      | error e => rfl
      | ok u2 =>
          cases h : KubernetesRunner.wait_for_pod_completion polls with
          | error e => simp [KubernetesRunner.create_script_configmap,
              KubernetesRunner.create_runner_pod, h]
          | ok w => simp [KubernetesRunner.create_script_configmap,
              KubernetesRunner.create_runner_pod, h]

/-- C5 counterexample: with the override variable unset and the
in-cluster discovery variable set to the empty string, the code returns
`"docker"` (Python truthiness ignores an empty value), while the claim
("if the orchestrator in-cluster discovery variable is set, kubernetes is
returned", formalized by `detect_runtime_spec`) demands `"kubernetes"`. -/
theorem C5_counterexample :
    detect_runtime none (some "") = "docker" ∧
    detect_runtime_spec none (some "") = "kubernetes" ∧
    ("docker" : String) ≠ "kubernetes" := by
  refine ⟨by decide, by decide, by decide⟩

/-- C5 as amended: the override wins when (lowercased) it names one of
the two backends; otherwise a **nonempty** in-cluster discovery variable
selects kubernetes; otherwise docker; and the result is always one of the
two values. -/
theorem C5_amended (e k : Option String) :
    ((strLower (e.getD "") = "docker" ∨ strLower (e.getD "") = "kubernetes") →
      detect_runtime e k = strLower (e.getD "")) ∧
    (¬(strLower (e.getD "") = "docker" ∨ strLower (e.getD "") = "kubernetes") →
      (k.getD "") ≠ "" → detect_runtime e k = "kubernetes") ∧
    (¬(strLower (e.getD "") = "docker" ∨ strLower (e.getD "") = "kubernetes") →
      (k.getD "") = "" → detect_runtime e k = "docker") ∧
    (detect_runtime e k = "docker" ∨ detect_runtime e k = "kubernetes") := by
  refine ⟨?_, ?_, ?_, ?_⟩
  · intro h
    simp only [detect_runtime]
    rw [if_pos h]
  · intro h hk
    simp only [detect_runtime]
    rw [if_neg h, if_pos hk]
  · intro h hk
    simp only [detect_runtime]
    rw [if_neg h]
    simp [hk]
  · by_cases h : strLower (e.getD "") = "docker" ∨ strLower (e.getD "") = "kubernetes"
    · simp only [detect_runtime]
      rw [if_pos h]
      exact h
    · simp only [detect_runtime]
      rw [if_neg h]
      by_cases hk : (k.getD "") ≠ ""
      · rw [if_pos hk]
        right
        rfl
      · rw [if_neg hk]
        left
        rfl

/-- Witness for C5: the amended theorem applied at concrete environments
(an explicit `EXECUTION_RUNTIME=docker` override, and an in-cluster host
address with no override). -/
theorem C5_witness :
    detect_runtime (some "docker") none = "docker" ∧
    detect_runtime none (some "10.0.0.1") = "kubernetes" := by
  constructor
  · have h := (C5_amended (some "docker") none).1 (Or.inl (by decide))
    exact h
  · exact (C5_amended none (some "10.0.0.1")).2.1 (by decide) (by decide)

/-- C7: in `run_code` (`backend/app.py`), the active marker is written
as the event immediately after the job directories are created (lines
1020-1026); between that write and the `finally` removal no event touches
the marker, so it exists throughout execution (in particular when the
executor is invoked); and the trace of every path — early validation
return, executor result, executor exception caught at line 1269, and an
exception reaching the outer handler at line 1414 — ends with the
`finally` removal (lines 1419-1424), after which the marker is absent. -/
theorem C7_active_marker_lifecycle (p : RunCodePath) :
    runCodeEvents p =
      [.mkJobDirs, .writeActiveMarker] ++ middleEvents p ++
        [.removeActiveMarker] ∧
    RunCodeEvent.writeActiveMarker ∉ middleEvents p ∧
    RunCodeEvent.removeActiveMarker ∉ middleEvents p ∧
    markerPresentAfter [.mkJobDirs, .writeActiveMarker] = true ∧
    markerPresentAfter ([.mkJobDirs, .writeActiveMarker] ++ middleEvents p) =
      true ∧
    markerPresentAfter (runCodeEvents p) = false := by
  cases p <;>
    refine ⟨rfl, by simp [middleEvents], by simp [middleEvents], rfl,
      rfl, rfl⟩

/-- Case analysis of a normal (non-raising) return of
`wait_for_pod_completion`: the four return sites of the loop. -/
theorem wait_ok_cases (polls : List PodObservation) (w : WaitResult)
    (h : KubernetesRunner.wait_for_pod_completion polls = .ok w) :
    (w.status = .success ∧ w.exit_code = 0 ∧ w.error = none) ∨
    (w.status = .failed ∧ w.error = none ∧
      ∃ c : Option Int, PodObservation.phase .Failed c ∈ polls ∧
        w.exit_code = c.getD 1) ∨
    (w.status = .failed ∧ w.exit_code = -1 ∧
      w.error = some "Pod not found") ∨
    (w.status = .timeout ∧ w.exit_code = -1 ∧ w.error = none) := by
  induction polls with
  | nil =>
      simp only [KubernetesRunner.wait_for_pod_completion,
        Except.ok.injEq] at h
      subst h
      right; right; right
      exact ⟨rfl, rfl, rfl⟩
  | cons obs rest ih =>
      cases obs with
      | phase p c =>
          cases p with
          | Succeeded =>
              simp only [KubernetesRunner.wait_for_pod_completion,
                Except.ok.injEq] at h
              subst h
              left
              exact ⟨rfl, rfl, rfl⟩
          | Failed =>
              simp only [KubernetesRunner.wait_for_pod_completion,
                Except.ok.injEq] at h
              subst h
              right; left
              exact ⟨rfl, rfl, c, List.mem_cons_self _ _, rfl⟩
          | Pending =>
              have h2 : KubernetesRunner.wait_for_pod_completion rest =
                  .ok w := h
              rcases ih h2 with h3 | ⟨h3, h4, c2, hc2, h5⟩ | h3 | h3
              · exact Or.inl h3
              · exact Or.inr (Or.inl
                  ⟨h3, h4, c2, List.mem_cons_of_mem _ hc2, h5⟩)
              · exact Or.inr (Or.inr (Or.inl h3))
              · exact Or.inr (Or.inr (Or.inr h3))
          | Running =>
              have h2 : KubernetesRunner.wait_for_pod_completion rest =
                  .ok w := h
              rcases ih h2 with h3 | ⟨h3, h4, c2, hc2, h5⟩ | h3 | h3
              · exact Or.inl h3
              · exact Or.inr (Or.inl
                  ⟨h3, h4, c2, List.mem_cons_of_mem _ hc2, h5⟩)
              · exact Or.inr (Or.inr (Or.inl h3))
              · exact Or.inr (Or.inr (Or.inr h3))
      | notFound =>
          simp only [KubernetesRunner.wait_for_pod_completion,
            Except.ok.injEq] at h
          subst h
          right; right; left
          exact ⟨rfl, rfl, rfl⟩
      | apiError m =>
          simp [KubernetesRunner.wait_for_pod_completion] at h

/-- When no poll hits a non-404 `ApiException`, the wait loop returns
normally. -/
theorem wait_no_apiError (polls : List PodObservation)
    (h : ∀ m : String, PodObservation.apiError m ∉ polls) :
    ∃ w, KubernetesRunner.wait_for_pod_completion polls = .ok w := by
  induction polls with
  | nil => exact ⟨_, rfl⟩
  | cons obs rest ih =>
      have hrest : ∀ m : String, PodObservation.apiError m ∉ rest := by
        intro m hm
        exact h m (List.mem_cons_of_mem _ hm)
      cases obs with
      | phase p c =>
          cases p with
          | Succeeded => exact ⟨_, rfl⟩
          | Failed => exact ⟨_, rfl⟩
          | Pending => exact ih hrest
          | Running => exact ih hrest
      | notFound => exact ⟨_, rfl⟩
      | apiError m =>
          exact absurd (List.mem_cons_self _ rest) (h m)

/-- C1 counterexample, both on the orchestrator executor.  First run: the
pod never reaches a terminal phase within the budget, so the returned
dict is `{status: "timeout", exit_code: -1, logs: <pod logs>}` — with
empty pod logs every message-bearing field is empty (`logs = ""`,
no `error` key), so no "exceeded timeout" message exists anywhere in the
result, contrary to the claim.  Second run: the pod reports phase
`Failed` with container terminated exit code 0 (the code forwards that
code verbatim, line 165), so the result has `exit_code = 0` with
`status = "failed"`, refuting "status=success iff exit_code == 0". -/
theorem C1_counterexample :
    (KubernetesRunner.run_script "job-1" (.ok ()) (.ok ())
        [.phase .Running none] "").result =
      Except.ok { status := Status.timeout, exit_code := -1,
                  error := none, logs := "" } ∧
    (KubernetesRunner.run_script "job-1" (.ok ()) (.ok ())
        [.phase .Failed (some 0)] "").result =
      Except.ok { status := Status.failed, exit_code := 0,
                  error := none, logs := "" } ∧
    Status.failed ≠ Status.success := by
  exact ⟨rfl, rfl, by decide⟩

/-- C1 as amended.  Both executors return a status among
{success, failed, timeout}.  The container executor satisfies the full
invariant: success iff exit code 0, and a timeout result carries
exit code -1 with the "timed out" message.  The orchestrator executor
satisfies: success implies exit code 0 (the converse holds provided every
`Failed`-phase poll reports a nonzero terminated exit code), and a
timeout result carries exit code -1 but no timeout message — its `logs`
are the pod logs verbatim and its `error` key is absent. -/
theorem C1_amended (t : Nat) (o : SubprocessOutcome)
    (job : String) (cm pod : Except String Unit)
    (polls : List PodObservation) (podLogs : String) (r : K8sResult)
    (hok : (KubernetesRunner.run_script job cm pod polls podLogs).result =
      .ok r)
    (hfail : ∀ c : Option Int,
      PodObservation.phase .Failed c ∈ polls → c.getD 1 ≠ 0) :
    ((DockerRunner.run_script t o).status = .success ∨
     (DockerRunner.run_script t o).status = .failed ∨
     (DockerRunner.run_script t o).status = .timeout) ∧
    ((DockerRunner.run_script t o).status = .success ↔
      (DockerRunner.run_script t o).exit_code = 0) ∧
    ((DockerRunner.run_script t o).status = .timeout →
      (DockerRunner.run_script t o).exit_code = -1 ∧
      (DockerRunner.run_script t o).stderr =
        s!"Script execution timed out after {t} seconds") ∧
    (r.status = .success ∨ r.status = .failed ∨ r.status = .timeout) ∧
    (r.status = .success ↔ r.exit_code = 0) ∧
    (r.status = .timeout →
      r.exit_code = -1 ∧ r.logs = podLogs ∧ r.error = none) := by
  have hdocker1 : (DockerRunner.run_script t o).status = .success ∨
      (DockerRunner.run_script t o).status = .failed ∨
      (DockerRunner.run_script t o).status = .timeout := by
    cases o with
    | completed rc out err =>
        by_cases h : rc = 0
        · left; simp [DockerRunner.run_script, h]
        · right; left; simp [DockerRunner.run_script, h]
    | timedOut => right; right; rfl
    | raised e => right; left; rfl
  have hdocker2 : (DockerRunner.run_script t o).status = .success ↔
      (DockerRunner.run_script t o).exit_code = 0 := by
    cases o with
    | completed rc out err =>
        by_cases h : rc = 0
        · simp [DockerRunner.run_script, h]
        · simp [DockerRunner.run_script, h]
    | timedOut =>
        simp [DockerRunner.run_script]
    | raised e =>
        simp [DockerRunner.run_script]
  have hdocker3 : (DockerRunner.run_script t o).status = .timeout →
      (DockerRunner.run_script t o).exit_code = -1 ∧
      (DockerRunner.run_script t o).stderr =
        s!"Script execution timed out after {t} seconds" := by
    cases o with
    | completed rc out err =>
        intro h
        by_cases h2 : rc = 0 <;> simp [DockerRunner.run_script, h2] at h
    | timedOut => intro _; exact ⟨rfl, rfl⟩
    | raised e =>
        intro h
        simp [DockerRunner.run_script] at h
  -- invert the k8s run
  rcases cm with cme | cmu
  · simp [KubernetesRunner.run_script,
      KubernetesRunner.create_script_configmap] at hok
  rcases pod with pode | podu
  · simp [KubernetesRunner.run_script,
      KubernetesRunner.create_script_configmap,
      KubernetesRunner.create_runner_pod] at hok
  rcases hw : KubernetesRunner.wait_for_pod_completion polls with we | w
  · simp [KubernetesRunner.run_script,
      KubernetesRunner.create_script_configmap,
      KubernetesRunner.create_runner_pod, hw] at hok
  have hr : r = { status := w.status, exit_code := w.exit_code,
                  error := w.error, logs := podLogs } := by
    simp [KubernetesRunner.run_script,
      KubernetesRunner.create_script_configmap,
      KubernetesRunner.create_runner_pod, hw] at hok
    exact hok.symm
  subst hr
  rcases wait_ok_cases polls w hw with
    ⟨h1, h2, h3⟩ | ⟨h1, h2, c, hc, h3⟩ | ⟨h1, h2, h3⟩ | ⟨h1, h2, h3⟩
  · exact ⟨hdocker1, hdocker2, hdocker3, Or.inl h1,
      by simp [h1, h2], by simp [h1]⟩
  · refine ⟨hdocker1, hdocker2, hdocker3, Or.inr (Or.inl h1), ?_, ?_⟩
    · simp only [h1, h3]
      constructor
      · intro hcon
        exact absurd hcon (by simp)
      · intro hzero
        exact absurd hzero (hfail c hc)
    · intro hcon
      rw [h1] at hcon
      exact absurd hcon (by simp)
  · refine ⟨hdocker1, hdocker2, hdocker3, Or.inr (Or.inl h1), ?_, ?_⟩
    · simp [h1, h2]
    · intro hcon
      rw [h1] at hcon
      exact absurd hcon (by simp)
  · exact ⟨hdocker1, hdocker2, hdocker3, Or.inr (Or.inr h1),
      by simp [h1, h2], fun _ => ⟨h2, rfl, h3⟩⟩

/-- Witness for C1: the amended theorem applied to a concrete timed-out
container run and a concrete succeeded pod run. -/
theorem C1_witness :
    (DockerRunner.run_script 60 SubprocessOutcome.timedOut).status =
        Status.success ∨
    (DockerRunner.run_script 60 SubprocessOutcome.timedOut).status =
        Status.failed ∨
    (DockerRunner.run_script 60 SubprocessOutcome.timedOut).status =
        Status.timeout :=
  (C1_amended 60 .timedOut "job-1" (.ok ()) (.ok ())
    [.phase .Succeeded none] "done"
    { status := .success, exit_code := 0, error := none, logs := "done" }
    rfl (by intro c hc; simp at hc)).1

/-- C2 counterexample: a ConfigMap creation failure (a launch failure:
the backend is reachable but the job could not be staged) makes the
orchestrator executor's `run_script` raise
`RuntimeError("Failed to create ConfigMap: ...")` out of the executor
boundary (`create_script_configmap` raises, and `run_script` has no
`except` clause), instead of returning a normalized result as data. -/
theorem C2_counterexample :
    (KubernetesRunner.run_script "job-1" (.error "connection refused")
        (.ok ()) [] "").result =
      Except.error "Failed to create ConfigMap: connection refused" ∧
    (KubernetesRunner.run_script "job-1" (.error "connection refused")
        (.ok ()) [] "").result.isOk = false := by
  exact ⟨rfl, rfl⟩

/-- C2 as amended: the container executor returns every failure — launch
exception, timeout, nonzero exit — as data and never raises (its model is
a total function into `RunResult`, with any exception from the launch
turned into a failed result carrying the exception text); the
orchestrator executor returns timeouts, nonzero exits and pod
disappearance as data, but only when the ConfigMap and Pod creation
succeed and no poll hits a non-404 API error — those are raised as
exceptions past the executor boundary. -/
theorem C2_amended (t : Nat) (o : SubprocessOutcome) (e : String)
    (job : String) (polls : List PodObservation) (podLogs : String)
    (hpoll : ∀ m : String, PodObservation.apiError m ∉ polls) :
    ((DockerRunner.run_script t o).status = .success ∨
     (DockerRunner.run_script t o).status = .failed ∨
     (DockerRunner.run_script t o).status = .timeout) ∧
    (DockerRunner.run_script t (.raised e)).status = .failed ∧
    (DockerRunner.run_script t (.raised e)).exit_code = -1 ∧
    (DockerRunner.run_script t (.raised e)).stderr =
      s!"Docker execution error: {e}" ∧
    (∃ r, (KubernetesRunner.run_script job (.ok ()) (.ok ()) polls
      podLogs).result = .ok r) := by
  refine ⟨?_, rfl, rfl, rfl, ?_⟩
  · cases o with
    | completed rc out err =>
        by_cases h : rc = 0
        · left; simp [DockerRunner.run_script, h]
        · right; left; simp [DockerRunner.run_script, h]
    | timedOut => right; right; rfl
    | raised e2 => right; left; rfl
  · obtain ⟨w, hw⟩ := wait_no_apiError polls hpoll
    refine ⟨{ status := w.status, exit_code := w.exit_code,
              error := w.error, logs := podLogs }, ?_⟩
    simp [KubernetesRunner.run_script,
      KubernetesRunner.create_script_configmap,
      KubernetesRunner.create_runner_pod, hw]

/-- Witness for C2: the amended theorem applied to a concrete clean
container run and an empty (immediately exhausted) poll sequence. -/
theorem C2_witness :
    ∃ r, (KubernetesRunner.run_script "job-1" (.ok ()) (.ok ()) [] "").result =
      .ok r :=
  (C2_amended 60 (.completed 0 "" "") "boom" "job-1" [] ""
    (by intro m hm; simp at hm)).2.2.2.2

/-- C4: `backend/app.py` lines 51-74.  When `detect_runtime()` says
kubernetes and the Kubernetes runner's initialization raises, the
exception is caught (a warning is printed) and `_execution_runtime` is
permanently set to `"docker"` for the process — the selection is made
once at import time and requests dispatch on the stored value, so no
per-request retry exists; startup then succeeds with the Docker backend
iff the Docker runner initializes, and otherwise raises
`RuntimeError("No script execution runtime available. ...")`, refusing
to start.  In particular the process never ends up on the kubernetes
backend once its initialization has failed. -/
theorem C4_startup_fallback (k8s docker : Except String Unit) (e : String)
    (hk : k8s = .error e) :
    (∀ u : Unit, docker = .ok u →
      startupRuntime "kubernetes" k8s docker = .ok "docker") ∧
    (∀ e2 : String, docker = .error e2 →
      startupRuntime "kubernetes" k8s docker =
        .error "No script execution runtime available. Cannot start backend.") ∧
    startupRuntime "kubernetes" k8s docker ≠ .ok "kubernetes" := by
  subst hk
  refine ⟨?_, ?_, ?_⟩
  · intro u hu
    subst hu
    rfl
  · intro e2 he2
    subst he2
    rfl
  · cases docker with
    | ok u => intro h; simp [startupRuntime] at h
    | error e2 => intro h; simp [startupRuntime] at h

/-- Witness for C4: a failing Kubernetes initialization with a healthy
Docker runtime falls back to docker, applied at concrete outcomes. -/
theorem C4_witness :
    startupRuntime "kubernetes" (.error "no kubeconfig") (.ok ()) =
      .ok "docker" :=
  (C4_startup_fallback (.error "no kubeconfig") (.ok ()) "no kubeconfig"
    rfl).1 () rfl

/-- C6: the cleanup sweep (`cleanup_old_outputs`, `backend/app.py` lines
651-718).  Part 1: a job directory whose `.active` marker is younger than
twice the retention threshold is never deleted, whatever its mtime.
Part 2: when the sweep runs (lock acquired), every directory whose
modification age is at least the threshold and that either has no marker
or has a marker strictly older than twice the threshold is deleted. -/
theorem C6_cleanup_policy (T : Nat) (lock : Bool) (dirs : List JobDirInfo) :
    (∀ d ∈ cleanup_old_outputs lock T dirs, ∀ a : Int,
      d.markerAge = some a → ¬(a < (T * 60 : Int) * 2)) ∧
    (lock = true → ∀ d ∈ dirs, d.mtimeAge ≥ (T * 60 : Int) →
      (d.markerAge = none ∨
        ∃ a : Int, d.markerAge = some a ∧ a > (T * 60 : Int) * 2) →
      d ∈ cleanup_old_outputs lock T dirs) := by
  constructor
  · intro d hd a ha hlt
    rcases lock with _ | _
    · simp [cleanup_old_outputs] at hd
    · simp only [cleanup_old_outputs, if_true, List.mem_filter] at hd
      have hdel := hd.2
      simp [shouldDelete, ha, hlt] at hdel
  · intro hl d hd hage hmark
    subst hl
    simp only [cleanup_old_outputs, if_true, List.mem_filter]
    refine ⟨hd, ?_⟩
    rcases hmark with hnone | ⟨a, ha, hgt⟩
    · simp only [shouldDelete, hnone]
      simpa using hage
    · have hnlt : ¬(a < (T * 60 : Int) * 2) := by omega
      simp only [shouldDelete, ha, if_neg hnlt]
      simpa using hage

/-- Witness for C6: a 1800-second-old markerless directory is deleted by
a 30-minute sweep, and deletion never touches a directory with a fresh
marker (applied at concrete directories). -/
theorem C6_witness :
    (⟨none, 1800⟩ : JobDirInfo) ∈
      cleanup_old_outputs true 30 [⟨none, 1800⟩, ⟨some 100, 7200⟩] := by
  refine (C6_cleanup_policy 30 true [⟨none, 1800⟩, ⟨some 100, 7200⟩]).2
    rfl ⟨none, 1800⟩ ?_ (by decide) (Or.inl rfl)
  simp

/-- C9 counterexample: a stderr with two exception markers on different
lines.  `_extract_error_type` uses `re.search`, which returns the
**first** (leftmost) match scanning forward, so it extracts
`"ValueError"` from the first line; the claimed reverse scan from the
tail would extract `"TypeError"` from the last line. -/
theorem C9_counterexample :
    ScriptLogger._extract_error_type
        "ValueError: bad value\nTypeError: bad type" = some "ValueError" ∧
    ("ValueError" : String) ≠ "TypeError" := by
  exact ⟨by decide, by decide⟩

/-- The search underlying `_extract_error_type` returns the match at the
first (leftmost) start position, with every earlier position failing to
match. -/
theorem searchErrorType_first (l : List Char) (g : String)
    (h : searchErrorType l = some g) :
    ∃ i, tryMatch (l.drop i) = some g ∧
      ∀ j, j < i → tryMatch (l.drop j) = none := by
  induction l with
  | nil => simp [searchErrorType] at h
  | cons c t ih =>
      cases htm : tryMatch (c :: t) with
      | some g0 =>
          have hg : g0 = g := by
            simp [searchErrorType, htm] at h
            exact h
          subst hg
          exact ⟨0, htm, fun j hj => absurd hj (Nat.not_lt_zero j)⟩
      | none =>
          have h2 : searchErrorType t = some g := by
            simpa [searchErrorType, htm] using h
          obtain ⟨i, h3, h4⟩ := ih h2
          refine ⟨i + 1, ?_, ?_⟩
          · simpa using h3
          · intro j hj
            cases j with
            | zero => exact htm
            | succ j2 =>
                have hj2 : j2 < i := Nat.lt_of_succ_lt_succ hj
                simpa using h4 j2 hj2

/-- C9 as amended: the extracted `error_type` is the result of a
**forward** scan — it is the match of the regex at the leftmost matching
start position of stderr (every earlier position fails to match), so when
several `SomeError:` markers appear on different lines the first one
wins, not the innermost (last) one. -/
theorem C9_amended (stderr g : String)
    (h : ScriptLogger._extract_error_type stderr = some g) :
    ∃ i, tryMatch (stderr.toList.drop i) = some g ∧
      ∀ j, j < i → tryMatch (stderr.toList.drop j) = none := by
  by_cases hs : stderr = ""
  · subst hs
    simp [ScriptLogger._extract_error_type] at h
  · rw [ScriptLogger._extract_error_type, if_neg hs] at h
    exact searchErrorType_first _ _ h

/-- Witness for C9: the amended theorem applied to a concrete stderr. -/
theorem C9_witness :
    ∃ i, tryMatch ("ValueError: x".toList.drop i) = some "ValueError" ∧
      ∀ j, j < i → tryMatch ("ValueError: x".toList.drop j) = none :=
  C9_amended "ValueError: x" "ValueError" (by decide)

/-- `_update_session` on a session id with no existing record: a fresh
record is appended. -/
theorem update_session_fresh (st : LoggerState) (A log_id : String)
    (status : AttemptStatus)
    (h : ∀ s ∈ st.sessions, s.session_id ≠ A) :
    ScriptLogger._update_session st A log_id status =
      { st with
        sessions := st.sessions ++
          [{ session_id := A, attempts := [⟨log_id, status⟩],
             status := if status = .success then .resolved
                       else .in_progress }] } := by
  have hfind : st.sessions.find? (fun s => s.session_id = A) = none :=
    find?_of_forall_false _ (fun s hs => by simpa using h s hs)
  simp only [ScriptLogger._update_session, hfind]
  cases status <;> rfl

/-- `_update_session` on a session id whose record exists: the record is
replaced in place with the appended/possibly-resolved version. -/
theorem update_session_existing (st : LoggerState) (A log_id : String)
    (status : AttemptStatus) (sess : SessionRecord)
    (hfind : st.sessions.find? (fun s => s.session_id = A) = some sess) :
    ScriptLogger._update_session st A log_id status =
      { st with
        sessions := st.sessions.map (fun s =>
          if s.session_id = A then
            { session_id := sess.session_id,
              attempts := sess.attempts ++ [⟨log_id, status⟩],
              status := if status = .success then .resolved
                        else sess.status }
          else s) } := by
  simp only [ScriptLogger._update_session, hfind]
  cases status with
  | failed => rfl
  | success => rfl

/-- C8: in one logger state, a failure logged with fresh id `A` (starting
session `A`), followed by a success logged with id `B` into session `A`
and `previous_attempt_id = A`.  Re-reading log `A` afterwards yields the
failure record with `fixed_by = B`, and session `A` lists the two
attempts in order with final status resolved. -/
theorem C8_session_linking (st : LoggerState) (A B em sd : String)
    (rc : Int) (files : List String)
    (hAfail : ∀ f ∈ st.failures, f.log_id ≠ A)
    (hAsess : ∀ s ∈ st.sessions, s.session_id ≠ A)
    (hAne : A ≠ "") :
    (∃ f : FailureRecord,
      ScriptLogger.get_log
        ((ScriptLogger.log_success
            ((ScriptLogger.log_failure st A em sd rc none none none).1)
            B files (some A) (some A)).1) A = some (.failure f) ∧
      f.fixed_by = some B) ∧
    ScriptLogger.get_session
        ((ScriptLogger.log_success
            ((ScriptLogger.log_failure st A em sd rc none none none).1)
            B files (some A) (some A)).1) A =
      some { session_id := A,
             attempts := [⟨A, .failed⟩, ⟨B, .success⟩],
             status := .resolved } := by
  classical
  set F : FailureRecord :=
    { log_id := A
      session_id := A
      error_message := em
      error_type := ScriptLogger._extract_error_type sd
      error_category := ScriptLogger._categorize_error em sd
      stderr := sd
      return_code := rc
      previous_attempt_id := none
      fixed_by := none } with hF
  set S1 : SessionRecord :=
    { session_id := A, attempts := [⟨A, .failed⟩],
      status := .in_progress } with hS1
  set S2 : SessionRecord :=
    { session_id := A, attempts := [⟨A, .failed⟩, ⟨B, .success⟩],
      status := .resolved } with hS2
  -- step 1: the logged failure
  have hstep1 : (ScriptLogger.log_failure st A em sd rc none none none).1 =
      { failures := st.failures ++ [F], successes := st.successes,
        sessions := st.sessions ++ [S1] } := by
    simp only [ScriptLogger.log_failure, ScriptLogger.effectiveSessionId]
    rw [update_session_fresh _ _ _ _ (by simpa using hAsess)]
    rfl
  rw [hstep1]
  -- step 2: the logged success
  have hfindS1 : ((st.sessions ++ [S1]).find?
      (fun s => s.session_id = A)) = some S1 := by
    rw [find?_append_of_forall_false _ _
      (fun s hs => by simpa using hAsess s hs)]
    simp [List.find?, hS1]
  have hstep2 : (ScriptLogger.log_success
      { failures := st.failures ++ [F], successes := st.successes,
        sessions := st.sessions ++ [S1] }
      B files (some A) (some A)).1 =
      { failures := st.failures ++ [{ F with fixed_by := some B }],
        successes := st.successes ++
          [{ log_id := B, session_id := A, output_files := files,
             previous_attempt_id := some A }],
        sessions := st.sessions ++ [S2] } := by
    simp only [ScriptLogger.log_success, ScriptLogger.effectiveSessionId,
      if_neg hAne]
    rw [update_session_existing _ _ _ _ S1 hfindS1]
    simp only [ScriptLogger._mark_failure_as_fixed]
    rw [setFixedBy_append F A B hAfail (by rw [hF])]
    rw [map_replace_append S1 _ A hAsess rfl]
    rfl
  rw [hstep2]
  constructor
  · refine ⟨{ F with fixed_by := some B }, ?_, rfl⟩
    simp only [ScriptLogger.get_log]
    rw [find?_append_of_forall_false _ _
      (fun f hf => by simpa using hAfail f hf)]
    simp [List.find?, hF]
  · simp only [ScriptLogger.get_session]
    rw [find?_append_of_forall_false _ _
      (fun s hs => by simpa using hAsess s hs)]
    simp [List.find?, hS2]

/-- Witness for C8: the linking theorem applied to the empty logger state
with concrete ids. -/
theorem C8_witness :
    (∃ f : FailureRecord,
      ScriptLogger.get_log
        ((ScriptLogger.log_success
            ((ScriptLogger.log_failure ⟨[], [], []⟩ "a"
                "boom" "ValueError: boom" 1 none none none).1)
            "b" ["result.png"] (some "a") (some "a")).1) "a" =
        some (.failure f) ∧
      f.fixed_by = some "b") ∧
    ScriptLogger.get_session
        ((ScriptLogger.log_success
            ((ScriptLogger.log_failure ⟨[], [], []⟩ "a"
                "boom" "ValueError: boom" 1 none none none).1)
            "b" ["result.png"] (some "a") (some "a")).1) "a" =
      some { session_id := "a",
             attempts := [⟨"a", .failed⟩, ⟨"b", .success⟩],
             status := .resolved } :=
  C8_session_linking ⟨[], [], []⟩ "a" "b" "boom" "ValueError: boom" 1
    ["result.png"] (by intro f hf; simp at hf)
    (by intro s hs; simp at hs) (by decide)

/-- `get_session` right after `_update_session` on an existing session:
the stored record is the appended (and possibly resolved) one. -/
theorem get_session_after_update (st2 : LoggerState) (A log_id : String)
    (status : AttemptStatus) (sess : SessionRecord)
    (hfind : st2.sessions.find? (fun s => s.session_id = A) = some sess) :
    ScriptLogger.get_session
        (ScriptLogger._update_session st2 A log_id status) A =
      some { session_id := sess.session_id,
             attempts := sess.attempts ++ [⟨log_id, status⟩],
             status := if status = .success then .resolved
                       else sess.status } := by
  rw [update_session_existing st2 A log_id status sess hfind]
  simp only [ScriptLogger.get_session]
  have hsess : sess.session_id = A := by
    simpa using List.find?_some hfind
  exact find?_map_replace A _ (by simpa using hsess) hfind

/-- C10: once a session is resolved, logging a further failure into it
appends the attempt but leaves the status resolved — `_update_session`
only ever sets `resolved` (on success) and never writes `in_progress`
over an existing record. -/
theorem C10_resolution_monotone (st : LoggerState)
    (sessionId : String) (sess : SessionRecord)
    (log_id em sd : String) (rc : Int)
    (prev cat : Option String)
    (hne : sessionId ≠ "")
    (hfound : ScriptLogger.get_session st sessionId = some sess)
    (hres : sess.status = .resolved) :
    ScriptLogger.get_session
        ((ScriptLogger.log_failure st log_id em sd rc (some sessionId)
            prev cat).1) sessionId =
      some { session_id := sess.session_id,
             attempts := sess.attempts ++ [⟨log_id, .failed⟩],
             status := .resolved } := by
  classical
  simp only [ScriptLogger.get_session] at hfound
  simp only [ScriptLogger.log_failure, ScriptLogger.effectiveSessionId,
    if_neg hne]
  refine Eq.trans
    (get_session_after_update _ sessionId log_id AttemptStatus.failed sess
      ?_) ?_
  · exact hfound
  · simp [hres]

/-- Witness for C10: a resolved one-attempt session receives a further
failed attempt and stays resolved. -/
theorem C10_witness :
    ScriptLogger.get_session
        ((ScriptLogger.log_failure
            ⟨[], [], [{ session_id := "s",
                        attempts := [⟨"x", .success⟩],
                        status := .resolved }]⟩
            "y" "err" "TypeError: err" 1 (some "s") none none).1) "s" =
      some { session_id := "s",
             attempts := [⟨"x", .success⟩, ⟨"y", .failed⟩],
             status := .resolved } :=
  C10_resolution_monotone
    ⟨[], [], [{ session_id := "s", attempts := [⟨"x", .success⟩],
                status := .resolved }]⟩
    "s" { session_id := "s", attempts := [⟨"x", .success⟩],
          status := .resolved }
    "y" "err" "TypeError: err" 1 none none (by decide) (by decide) rfl
